import Mathlib

/-!
Verification development for the email-automation backend
(`main.py`, `smtp_send.py`).

The Python source is shallowly embedded below:
  * JSON values are the inductive `Json`; `json_loads` embeds Python's
    `json.loads` (strict JSON: whitespace, literals, strings with escapes,
    numbers, arrays, objects; duplicate keys keep the last occurrence,
    matching Python dict construction).
  * `pyStrip` embeds `str.strip()`, `pyReplace` embeds `str.replace`
    (left-to-right, non-overlapping, all occurrences).
  * Python floats are modelled as exact rationals `ℚ`; `round3` embeds
    `round(x, 3)` (round-half-up on the exact rational; the tie case at
    half a thousandth never matters for the properties proved here).
  * Python truthiness of a JSON value is `jtruthy`.
  * Fallible code returns `Except`/`Option`.
-/

/-- JSON values, as produced by Python's `json.loads`. -/
inductive Json where
  | null
  | bool (b : Bool)
  | num (q : ℚ)
  | str (s : String)
  | arr (elems : List Json)
  | obj (members : List (String × Json))

/-- Python truthiness (`bool(x)`) of a JSON value: `None`, `False`, `0`,
`""`, `[]`, `{}` are falsy, everything else truthy. -/
def jtruthy : Json → Bool
  | .null => false
  | .bool b => b
  | .num q => !(q == 0)
  | .str s => !(s == "")
  | .arr l => !l.isEmpty
  | .obj l => !l.isEmpty

/-- Python truthiness of `dict.get`'s result (`None` when absent). -/
def jtruthyOpt : Option Json → Bool
  | none => false
  | some j => jtruthy j

/-- `dict.get k`: Python dicts built by the JSON parser keep the LAST
occurrence of a duplicated key, so the lookup returns the last match. -/
def jget : List (String × Json) → String → Option Json
  | [], _ => none
  | (k0, v) :: rest, k =>
    match jget rest k with
    | some r => some r
    | none => if k0 = k then some v else none

/-- JSON whitespace characters accepted by Python's `json.loads`. -/
def isJsonWs (c : Char) : Bool :=
  c = ' ' ∨ c = '\t' ∨ c = '\n' ∨ c = '\r'

def skipWs : List Char → List Char
  | [] => []
  | c :: cs => if isJsonWs c then skipWs cs else c :: cs

def hexVal (c : Char) : Option ℕ :=
  if '0' ≤ c ∧ c ≤ '9' then some (c.toNat - '0'.toNat)
  else if 'a' ≤ c ∧ c ≤ 'f' then some (c.toNat - 'a'.toNat + 10)
  else if 'A' ≤ c ∧ c ≤ 'F' then some (c.toNat - 'A'.toNat + 10)
  else none

/-- Read four hex digits (the `XXXX` of a `\uXXXX` escape). -/
def readHex4 : List Char → Option (ℕ × List Char)
  | a :: b :: c :: d :: rest =>
    match hexVal a, hexVal b, hexVal c, hexVal d with
    | some x, some y, some z, some w => some (((x * 16 + y) * 16 + z) * 16 + w, rest)
    | _, _, _, _ => none
  | _ => none

/-- Decode one `\u` escape, combining a high/low surrogate pair the way
Python's json module does.  A lone surrogate is rejected (Lean's `Char`
cannot represent it; such inputs do not occur in the verified claims). -/
def readUnicodeEsc (cs : List Char) : Option (Char × List Char) :=
  match readHex4 cs with
  | none => none
  | some (n, rest) =>
    if 0xd800 ≤ n ∧ n < 0xdc00 then
      match rest with
      | '\\' :: 'u' :: rest2 =>
        match readHex4 rest2 with
        | some (m, rest3) =>
          if 0xdc00 ≤ m ∧ m < 0xe000 then
            let code := 0x10000 + (n - 0xd800) * 0x400 + (m - 0xdc00)
            if hc : code.isValidChar then some (Char.ofNatAux code hc, rest3)
            else none
          else none
        | none => none
      | _ => none
    else
      if hc : n.isValidChar then some (Char.ofNatAux n hc, rest)
      else none

/-- Parse the body of a JSON string literal (after the opening quote),
with the escapes accepted by Python's `json.loads`; raw control
characters below 0x20 are rejected, as in strict mode. -/
def parseStringBody (fuel : ℕ) (cs : List Char) : Option (List Char × List Char) :=
  match fuel with
  | 0 => none
  | fuel + 1 =>
    match cs with
    | [] => none
    | '"' :: rest => some ([], rest)
    | '\\' :: e :: rest =>
      let dec : Option (Char × List Char) :=
        match e with
        | '"' => some ('"', rest)
        | '\\' => some ('\\', rest)
        | '/' => some ('/', rest)
        | 'b' => some ('\x08', rest)
        | 'f' => some ('\x0c', rest)
        | 'n' => some ('\n', rest)
        | 'r' => some ('\r', rest)
        | 't' => some ('\t', rest)
        | 'u' => readUnicodeEsc rest
        | _ => none
      match dec with
      | none => none
      | some (c, rest2) =>
        match parseStringBody fuel rest2 with
        | some (body, rest3) => some (c :: body, rest3)
        | none => none
    | c :: rest =>
      if c.toNat < 0x20 then none
      else
        match parseStringBody fuel rest with
        | some (body, rest2) => some (c :: body, rest2)
        | none => none

def digitsToNat (acc : ℕ) : List Char → ℕ
  | [] => acc
  | c :: cs => digitsToNat (acc * 10 + (c.toNat - '0'.toNat)) cs

/-- Parse a JSON number per the strict grammar
`-?(0|[1-9][0-9]*)(\.[0-9]+)?([eE][+-]?[0-9]+)?`, as an exact rational. -/
def parseNumber (cs : List Char) : Option (ℚ × List Char) :=
  let (sign, cs1) : ℚ × List Char :=
    match cs with
    | '-' :: rest => (-1, rest)
    | _ => (1, cs)
  let intDigits := cs1.takeWhile Char.isDigit
  let cs2 := cs1.dropWhile Char.isDigit
  if intDigits = [] then none
  else if intDigits.length > 1 ∧ intDigits.headI = '0' then none
  else
    let (fracDigits, cs3) : List Char × List Char :=
      match cs2 with
      | '.' :: rest => (rest.takeWhile Char.isDigit, rest.dropWhile Char.isDigit)
      | _ => ([], cs2)
    if cs2 ≠ [] ∧ cs2.headI = '.' ∧ fracDigits = [] then none
    else
      let parseExp : Option (ℤ × List Char) :=
        match cs3 with
        | 'e' :: rest | 'E' :: rest =>
          let (esign, rest1) : ℤ × List Char :=
            match rest with
            | '+' :: r => (1, r)
            | '-' :: r => (-1, r)
            | _ => (1, rest)
          let eDigits := rest1.takeWhile Char.isDigit
          if eDigits = [] then none
          else some (esign * (digitsToNat 0 eDigits : ℤ), rest1.dropWhile Char.isDigit)
        | _ => some (0, cs3)
      match parseExp with
      | none => none
      | some (e, rest) =>
        let mantissa : ℚ := (digitsToNat 0 (intDigits ++ fracDigits) : ℚ) / (10 ^ fracDigits.length : ℕ)
        let scaled : ℚ := if 0 ≤ e then mantissa * 10 ^ e.toNat else mantissa / 10 ^ (-e).toNat
        some (sign * scaled, rest)

mutual

/-- Parse one JSON value from the head of the input (leading whitespace
already skipped), returning the value and the remaining input. -/
def parseValue (fuel : ℕ) (cs : List Char) : Option (Json × List Char) :=
  match fuel with
  | 0 => none
  | fuel + 1 =>
    match cs with
    | 'n' :: 'u' :: 'l' :: 'l' :: rest => some (.null, rest)
    | 't' :: 'r' :: 'u' :: 'e' :: rest => some (.bool true, rest)
    | 'f' :: 'a' :: 'l' :: 's' :: 'e' :: rest => some (.bool false, rest)
    | '"' :: rest =>
      match parseStringBody (rest.length + 1) rest with
      | some (body, rest2) => some (.str body.asString, rest2)
      | none => none
    | '[' :: rest =>
      match skipWs rest with
      | ']' :: rest2 => some (.arr [], rest2)
      | rest2 =>
        match parseElems fuel rest2 with
        | some (elems, rest3) => some (.arr elems, rest3)
        | none => none
    | '{' :: rest =>
      match skipWs rest with
      | '}' :: rest2 => some (.obj [], rest2)
      | rest2 =>
        match parseMembers fuel rest2 with
        | some (mems, rest3) => some (.obj mems, rest3)
        | none => none
    | c :: _ =>
      if c = '-' ∨ c.isDigit then
        match parseNumber cs with
        | some (q, rest) => some (.num q, rest)
        | none => none
      else none
    | [] => none

/-- Parse a non-empty comma-separated list of values up to `]`. -/
def parseElems (fuel : ℕ) (cs : List Char) : Option (List Json × List Char) :=
  match fuel with
  | 0 => none
  | fuel + 1 =>
    match parseValue fuel cs with
    | none => none
    | some (v, rest) =>
      match skipWs rest with
      | ',' :: rest2 =>
        match parseElems fuel (skipWs rest2) with
        | some (vs, rest3) => some (v :: vs, rest3)
        | none => none
      | ']' :: rest2 => some ([v], rest2)
      | _ => none

/-- Parse a non-empty comma-separated list of `"key": value` members up
to `}`. -/
def parseMembers (fuel : ℕ) (cs : List Char) : Option (List (String × Json) × List Char) :=
  match fuel with
  | 0 => none
  | fuel + 1 =>
    match cs with
    | '"' :: rest =>
      match parseStringBody (rest.length + 1) rest with
      | none => none
      | some (key, rest1) =>
        match skipWs rest1 with
        | ':' :: rest2 =>
          match parseValue fuel (skipWs rest2) with
          | none => none
          | some (v, rest3) =>
            match skipWs rest3 with
            | ',' :: rest4 =>
              match parseMembers fuel (skipWs rest4) with
              | some (ms, rest5) => some ((key.asString, v) :: ms, rest5)
              | none => none
            | '}' :: rest4 => some ([(key.asString, v)], rest4)
            | _ => none
        | _ => none
    | _ => none

end

/-- Embedding of Python's `json.loads`: parse exactly one JSON document,
allowing surrounding whitespace, rejecting trailing data. -/
def json_loads (s : String) : Option Json :=
  let cs := skipWs s.toList
  match parseValue (s.length + 1) cs with
  | some (j, rest) => if skipWs rest = [] then some j else none
  | none => none

/-- Embedding of Python's `str.strip()`: drop leading and trailing
whitespace. -/
def pyStrip (s : String) : String :=
  (((s.toList.dropWhile Char.isWhitespace).reverse.dropWhile Char.isWhitespace).reverse).asString

/-- One pass of `str.replace`: scan left to right, replacing every
non-overlapping occurrence of `pat` (non-empty) by `rep`. -/
def replaceAllAux (fuel : ℕ) (pat rep cs : List Char) : List Char :=
  match fuel with
  | 0 => cs
  | fuel + 1 =>
    match cs with
    | [] => []
    | c :: rest =>
      if pat.isPrefixOf cs then
        rep ++ replaceAllAux fuel pat rep (cs.drop pat.length)
      else
        c :: replaceAllAux fuel pat rep rest

/-- Embedding of Python's `str.replace(pat, rep)` for non-empty `pat`. -/
def pyReplace (s pat rep : String) : String :=
  (replaceAllAux s.toList.length pat.toList rep.toList s.toList).asString

/-! ## Temperature spread (`compute_spread_temperatures`) -/

/-- `max(0.0, min(1.0, x))`. -/
def clamp01 (x : ℚ) : ℚ := max 0 (min 1 x)

/-- Embedding of `round(x, 3)`: round to the nearest thousandth
(`round` on `ℚ` is round-half-up; ties never arise in the claims). -/
def round3 (x : ℚ) : ℚ := (round (1000 * x) : ℤ) / 1000

/-- The raw (pre-clamp, pre-round) temperature of index `i`:
`base * (1.0 + 0.10 * (i - (count - 1) / 2.0))`. -/
def spreadRawVal (base : ℚ) (count i : ℕ) : ℚ :=
  base * (1 + (1 / 10) * ((i : ℚ) - ((count : ℚ) - 1) / 2))

/-- Embedding of `compute_spread_temperatures(base_temp, count)`,
including the `float(base_temp or 0.7)` falsy-default: a base of `0.0`
is replaced by `0.7`. -/
def compute_spread_temperatures (base_temp : ℚ) (count : ℕ) : List ℚ :=
  let base : ℚ := if base_temp = 0 then 7 / 10 else base_temp
  if count ≤ 1 then [clamp01 base]
  else (List.range count).map (fun i => round3 (clamp01 (spreadRawVal base count i)))

/-! ## Serialization (`json.dumps`) -/

def hexDigitChar (n : ℕ) : Char :=
  if n < 10 then Char.ofNat ('0'.toNat + n) else Char.ofNat ('a'.toNat + (n - 10))

def hex4 (n : ℕ) : String :=
  String.mk [hexDigitChar (n / 4096 % 16), hexDigitChar (n / 256 % 16),
             hexDigitChar (n / 16 % 16), hexDigitChar (n % 16)]

/-- Escape one character the way `json.dumps` does with its default
`ensure_ascii=True`: non-ASCII becomes `\uXXXX` (a surrogate pair above
the BMP). -/
def escChar (c : Char) : String :=
  if c = '"' then "\\\""
  else if c = '\\' then "\\\\"
  else if c = '\n' then "\\n"
  else if c = '\r' then "\\r"
  else if c = '\t' then "\\t"
  else if c = '\x08' then "\\b"
  else if c = '\x0c' then "\\f"
  else if c.toNat < 0x20 then "\\u" ++ hex4 c.toNat
  else if c.toNat < 0x7f then String.singleton c
  else if c.toNat ≤ 0xffff then "\\u" ++ hex4 c.toNat
  else
    let n := c.toNat - 0x10000
    "\\u" ++ hex4 (0xd800 + n / 0x400) ++ "\\u" ++ hex4 (0xdc00 + n % 0x400)

/-- `json.dumps` of a string value. -/
def dumpJString (s : String) : String :=
  "\"" ++ String.join (s.toList.map escChar) ++ "\""

/-- `json.dumps` of a number.  JSON numbers never occur in the data the
verified claims exercise, so Python's float `repr` is not modelled; an
integral rational prints as its integer. -/
def dumpNum (q : ℚ) : String :=
  if q.den = 1 then toString q.num else toString q

mutual

/-- Embedding of `json.dumps(obj)` with Python's default separators
`", "` and `": "`. -/
def dumpJson : Json → String
  | .null => "null"
  | .bool true => "true"
  | .bool false => "false"
  | .num q => dumpNum q
  | .str s => dumpJString s
  | .arr l => "[" ++ dumpArr l ++ "]"
  | .obj l => "\x7b" ++ dumpObj l ++ "\x7d"

def dumpArr : List Json → String
  | [] => ""
  | [x] => dumpJson x
  | x :: y :: xs => dumpJson x ++ ", " ++ dumpArr (y :: xs)

def dumpObj : List (String × Json) → String
  | [] => ""
  | [(k, v)] => dumpJString k ++ ": " ++ dumpJson v
  | (k, v) :: m :: xs => dumpJString k ++ ": " ++ dumpJson v ++ ", " ++ dumpObj (m :: xs)

end

/-! ## Data model (pydantic request/response schemas) -/

/-- `Lead` (pydantic model).  `business_specialization` has the non-empty
default from the source. -/
structure Lead where
  first_name : String
  last_name : Option String := none
  company : Option String := none
  title : Option String := none
  zip : Option String := none
  insight : Option String := none
  business_specialization : Option String :=
    some "Life insurance, Tax Preparation, Credit Repair, and Business Startup services for Women"

/-- `GenerateRequest` (pydantic model).  The pydantic bounds
(`temperature ∈ [0,1]`, `variants ∈ [1,10]`) are imposed as hypotheses
at the theorems, as the HTTP layer rejects out-of-bounds requests. -/
structure GenerateRequest where
  lead : Lead
  temperature : Option ℚ := some (7 / 10)
  max_tokens : Option ℤ := some 500
  tone : Option String := some "Friendly"
  variants : Option ℕ := some 1

/-- `VariantModel`.  `subject`, `body` and `id` keep the JSON values the
endpoint passes to the pydantic constructor. -/
structure Variant where
  id : Json
  subject : Json
  body : Json
  cta_text : Option Json
  confidence : Option Json
  used_tokens : Option Json
  raw_text : String

/-- `SendRequest` (pydantic model); `consent_snapshot` is an arbitrary
JSON object. -/
structure SendRequest where
  recipient_email : String
  subject : String
  body : String
  plain_text : Option String := none
  lead : Option Lead := none
  consent_snapshot : Option Json := none

/-- Python's `x or default` for an optional rational: `None` and the
falsy `0.0` both yield the default. -/
def pyOrQ (x : Option ℚ) (default : ℚ) : ℚ :=
  match x with
  | none => default
  | some q => if q = 0 then default else q

/-- Python's `x or default` for an optional integer. -/
def pyOrZ (x : Option ℤ) (default : ℤ) : ℤ :=
  match x with
  | none => default
  | some n => if n = 0 then default else n

/-- Python's `x or default` for an optional natural. -/
def pyOrN (x : Option ℕ) (default : ℕ) : ℕ :=
  match x with
  | none => default
  | some n => if n = 0 then default else n

/-- Python's `x or default` for an optional string (`""` is falsy). -/
def pyOrS (x : Option String) (default : String) : String :=
  match x with
  | none => default
  | some s => if s = "" then default else s

/-- `variant_obj.get(k1) or variant_obj.get(k2)`: the second lookup's
result is kept as-is (even if falsy) when the first is falsy. -/
def pyOrGet (a b : Option Json) : Option Json :=
  if jtruthyOpt a then a else b

/-- `variant_obj.get("cta_text") or variant_obj.get("cta") or None`. -/
def pyOrGetNone (a b : Option Json) : Option Json :=
  if jtruthyOpt a then a else if jtruthyOpt b then b else none

/-- `variant_obj.get("id") or str(uuid.uuid4())`: a falsy or missing id
falls back to the fresh identifier. -/
def pyOrId (a : Option Json) (fresh : String) : Json :=
  match a with
  | some j => if jtruthy j then j else .str fresh
  | none => .str fresh

/-! ## Prompt builder (`build_prompt`) -/

structure ChatMessage where
  role : String
  content : String

/-- Longest common prefix of two character lists. -/
def commonPrefixChars : List Char → List Char → List Char
  | a :: as2, b :: bs => if a = b then a :: commonPrefixChars as2 bs else []
  | _, _ => []

def leadingWsOf (l : List Char) : List Char :=
  l.takeWhile (fun c => c = ' ' ∨ c = '\t')

def isWsLine (l : List Char) : Bool :=
  (l.dropWhile Char.isWhitespace).isEmpty

/-- Embedding of `textwrap.dedent`: the longest common margin (of space
and tab characters) over all non-whitespace-only lines is removed from
the start of every line on which it occurs. -/
def textwrap_dedent (s : String) : String :=
  let lines := s.splitOn "\n"
  let margins := (lines.filter (fun l => !isWsLine l.toList)).map (fun l => leadingWsOf l.toList)
  let margin : List Char :=
    match margins with
    | [] => []
    | m :: ms => ms.foldl commonPrefixChars m
  if margin.isEmpty then s
  else
    String.intercalate "\n"
      (lines.map (fun l =>
        if margin.isPrefixOf l.toList then (l.toList.drop margin.length).asString else l))

/-- `json.dumps` of an optional string value. -/
def dumpOptStr : Option String → String
  | none => "null"
  | some s => dumpJString s

/-- `json.dumps(lead_dict, indent=2)` where `lead_dict` is the pydantic
`model_dump` of a `Lead` (fields in declaration order). -/
def lead_model_dump_json (l : Lead) : String :=
  "\x7b\n  \"first_name\": " ++ dumpJString l.first_name ++
  ",\n  \"last_name\": " ++ dumpOptStr l.last_name ++
  ",\n  \"company\": " ++ dumpOptStr l.company ++
  ",\n  \"title\": " ++ dumpOptStr l.title ++
  ",\n  \"zip\": " ++ dumpOptStr l.zip ++
  ",\n  \"insight\": " ++ dumpOptStr l.insight ++
  ",\n  \"business_specialization\": " ++ dumpOptStr l.business_specialization ++
  "\n\x7d"

/-- The fixed system message of `build_prompt` (no interpolation). -/
def systemMessageContent : String :=
  "You are a world-class B2C copywriter trained in Apollo.io\x27s high-conversion email framework. " ++
  "Write short, crystal-clear, and highly converting outreach emails targeted at busy customers. " ++
  "You are writing on behalf of The Policy Boss, a company specializing in Life insurance, Tax Preparation, Credit Repair, and Business Startup services for Women. " ++
  "\n\nConversion rules (must follow):\n" ++
  "1. Subject: 4–6 words, mobile-friendly, curiosity-driven, and directly relevant to the prospect\x27s pain or goal.\n" ++
  "2. Clarity: Target a 5th-grade reading level. Use simple language, minimal adverbs, and sentences < 15 words.\n" ++
  "3. Structure: Hook (personalization) → Specific pain → Clear value proposition → Single low-friction CTA.\n" ++
  "4. Engagement: Personalize to the lead\x27s name, title, and company. Mention \x27The Policy Boss\x27 naturally in the email body where appropriate. Add short social proof relevant to the business specialization if possible.\n" ++
  "5. Length: 70–100 words total in the body. Keep 3–4 short paragraphs (1–2 lines each).\n" ++
  "6. Output: Strict JSON with keys: subject, body, cta_text. No extra keys or commentary.\n" ++
  "\nImportant: Use the business specialization (provided by the user) to tailor the message, and naturally incorporate The Policy Boss as the company name."

/-- The user message of `build_prompt` before `textwrap.dedent`: the
f-string interpolating `json.dumps(lead, indent=2)` and the tone,
concatenated with the fixed response-format instructions. -/
def userInstructions (lead : Lead) (tone : String) : String :=
  "\nLead details:\n" ++ lead_model_dump_json lead ++
  "\n\nCompany: The Policy Boss\nTone: " ++ tone ++
  "\n\nTask:\nWrite **one** personalized outreach email tailored to the lead and the business specialization above.\n" ++
  "- Write the email on behalf of The Policy Boss (include the company name naturally in the email body).\n" ++
  "- Make the subject 4–6 words and directly relevant to the lead\x27s role or business specialization.\n" ++
  "- Body must be 70–100 words, 3–4 short paragraphs, sentences under 15 words, and at a 5th-grade reading level.\n" ++
  "- Include a one-line social proof if available or a short, believable benchmark (e.g., \"Clients cut churn 20-30%\").\n" ++
  "- Make the text visually good looking using html tags add bold italic, new lines etc.\n" ++
  "- End with a single clear, low-friction CTA that matches the CTA field.\n" ++
  "IMPORTANT INSTRUCTIONS FOR THE RESPONSE FORMAT:\n" ++
  "1) RETURN ONLY a single JSON object that is directly parsable by standard JSON parsers (e.g., python\x27s json.loads).\n" ++
  "2) The JSON MUST start with \x27\x7b\x27 and end with \x27\x7d\x27 and contain the exact keys described below.\n" ++
  "3) Do NOT include any surrounding explanatory text, headings, or bullet points.\n" ++
  "4) Do NOT wrap the JSON in markdown/code fences (```) or add language tags like ```json. Return the raw JSON only. that is very important if you do you lose\n" ++
  "5) If a value contains newlines, keep them inside the JSON string values only.\n\n" ++
  "Provide your response in the following json format (example keys and types):\n" ++
  "    \x7b\n" ++
  "        \"subject\": the subject line of the email,\n" ++
  "        \"body\": the HTML body of the email" ++
  "        \"cta_text\": a clear cta" ++
  "    \x7d\n\n"

/-- Embedding of `build_prompt(lead, tone)`: the static system message
followed by the dedented user message.  Neither the variant count nor
the temperature is an input. -/
def build_prompt (lead : Lead) (tone : String) : List ChatMessage :=
  [{ role := "system", content := systemMessageContent },
   { role := "user", content := textwrap_dedent (userInstructions lead tone) }]

/-! ## Response normalization (`extract_first_json` and the
per-variant normalization block of `generate_endpoint`) -/

/-- The fence-stripping chain of `extract_first_json`: `text.strip()`,
then `.replace("```json", "")`, then `.replace("```", "")` —
every occurrence anywhere in the text is deleted. -/
def fenceCleaned (text : String) : String :=
  pyReplace (pyReplace (pyStrip text) "```json" "") "```" ""

/-- Embedding of `extract_first_json`: strip surrounding whitespace,
delete every occurrence of `"```json"` and then of `"```"`, and parse
the result with `json.loads`. -/
def extract_first_json (text : String) : Except String Json :=
  match json_loads (fenceCleaned text) with
  | some j => .ok j
  | none => .error "Could not parse JSON from model response."

/-- The three generation-time failure kinds of the normalization block:
JSON parse failure, unexpected shape, missing/empty subject or body. -/
inductive NormError where
  | parse
  | shape
  | missingField

/-- The shape check of `generate_endpoint`: accept a dict, or a
non-empty list whose first element is a dict; anything else is a shape
failure. -/
def shapeTarget : Json → Option (List (String × Json))
  | .obj kvs => some kvs
  | .arr (first :: _) =>
    match first with
    | .obj kvs => some kvs
    | _ => none
  | _ => none

/-- Embedding of the per-variant normalization in `generate_endpoint`
(parse, shape check, field extraction, subject/body validation,
`VariantModel` construction).  `fresh` stands for `str(uuid.uuid4())`. -/
def normalizeVariant (fresh : String) (raw : String) : Except NormError Variant :=
  match extract_first_json raw with
  | .error _ => .error .parse
  | .ok parsed =>
    match shapeTarget parsed with
    | none => .error .shape
    | some variant_obj =>
      match jget variant_obj "subject", jget variant_obj "body" with
      | some subject, some body =>
        if jtruthy subject && jtruthy body then
          .ok
            { id := pyOrId (jget variant_obj "id") fresh
              subject := subject
              body := body
              cta_text := pyOrGetNone (jget variant_obj "cta_text") (jget variant_obj "cta")
              confidence := jget variant_obj "confidence"
              used_tokens := pyOrGet (jget variant_obj "used_tokens") (jget variant_obj "usedTokens")
              raw_text := dumpJson (.obj variant_obj) }
        else .error .missingField
      | _, _ => .error .missingField

/-! ## Generation orchestrator (`generate_endpoint`) -/

/-- Default model identifier (`MODEL` env default). -/
def MODEL : String := "mistralai/mistral-7b-instruct:free"

/-- One HTTP call to the model provider, as issued by
`call_openrouter(messages, MODEL, temp, max_tokens)`. -/
structure CallRec where
  messages : List ChatMessage
  model : String
  temperature : ℚ
  max_tokens : ℤ

/-- The `HTTPException`s `generate_endpoint` can raise, one constructor
per `raise` site, carrying the loop index of the failing variant and
the data interpolated into the detail string. -/
inductive GenError where
  | model (idx : ℕ) (msg : String)
  | parse (idx : ℕ) (excerpt : String)
  | shape (idx : ℕ) (excerpt : String)
  | invalidVariant (idx : ℕ) (excerpt : String)
  | internal

/-- HTTP status code of each failure (503 upstream, 500 otherwise). -/
def GenError.status : GenError → ℕ
  | .model _ _ => 503
  | _ => 500

/-- The 0-based loop index the failure names (`internal` names none). -/
def GenError.variantIndex : GenError → Option ℕ
  | .model idx _ => some idx
  | .parse idx _ => some idx
  | .shape idx _ => some idx
  | .invalidVariant idx _ => some idx
  | .internal => none

/-- The `detail` string of each `HTTPException`, naming the 1-based
variant number exactly as the f-strings in the source do. -/
def GenError.detail : GenError → String
  | .model idx msg =>
    "OpenRouter error on variant " ++ toString (idx + 1) ++ ": " ++ msg
  | .parse idx excerpt =>
    "Failed to parse model JSON for variant " ++ toString (idx + 1) ++
      ": Could not parse JSON from model response.. Raw: " ++ excerpt
  | .shape idx excerpt =>
    "Unexpected model response type for variant " ++ toString (idx + 1) ++ ". Raw: " ++ excerpt
  | .invalidVariant idx excerpt =>
    "Model returned invalid variant " ++ toString (idx + 1) ++ ". Missing subject/body. Raw: " ++ excerpt
  | .internal => "No valid variants produced."

/-- A model-call oracle: the outcome of the `k`-th HTTP call of the
request (transport/HTTP failure, or the returned message content).
Indexing by call number captures that two calls may answer differently
even at equal temperatures. -/
def Oracle : Type := ℕ → CallRec → Except String String

/-- One loop iteration of `generate_endpoint` at index `idx`: model
call, then parse / shape / subject-body validation, tagging each
failure with the index and the raw excerpt (`raw[:1000]`). -/
def stepExc (oracle : Oracle) (fresh : ℕ → String) (idx : ℕ) (call : CallRec) :
    Except GenError Variant :=
  match oracle idx call with
  | .error msg => .error (.model idx msg)
  | .ok raw =>
    match normalizeVariant (fresh idx) raw with
    | .ok v => .ok v
    | .error .parse => .error (.parse idx (raw.take 1000))
    | .error .shape => .error (.shape idx (raw.take 1000))
    | .error .missingField => .error (.invalidVariant idx (raw.take 1000))

/-- The payload of one `call_openrouter(messages, MODEL, temp, max_tokens)`
invocation. -/
def mkCall (msgs : List ChatMessage) (temp : ℚ) (mt : ℤ) : CallRec :=
  { messages := msgs, model := MODEL, temperature := temp, max_tokens := mt }

/-- The `for idx, temp in enumerate(temps)` loop: returns the calls
issued (in order) and either the collected variants or the first
failure, which aborts the loop. -/
def genLoop (oracle : Oracle) (fresh : ℕ → String) (msgs : List ChatMessage) (mt : ℤ) :
    ℕ → List ℚ → List CallRec × Except GenError (List Variant)
  | _, [] => ([], .ok [])
  | idx, temp :: rest =>
    let call : CallRec := mkCall msgs temp mt
    match stepExc oracle fresh idx call with
    | .error e => ([call], .error e)
    | .ok v =>
      let next := genLoop oracle fresh msgs mt (idx + 1) rest
      (call :: next.1,
       match next.2 with
       | .ok l => .ok (v :: l)
       | .error e => .error e)

/-- The effective base temperature `float(req.temperature or 0.7)`. -/
def reqBaseTemp (req : GenerateRequest) : ℚ := pyOrQ req.temperature (7 / 10)

/-- The effective variants count `int(req.variants or 1)`. -/
def reqVariants (req : GenerateRequest) : ℕ := pyOrN req.variants 1

/-- The effective max tokens `int(req.max_tokens or 500)`. -/
def reqMaxTokens (req : GenerateRequest) : ℤ := pyOrZ req.max_tokens 500

/-- The messages `build_prompt(lead_dict, req.tone or "Friendly")`. -/
def reqMessages (req : GenerateRequest) : List ChatMessage :=
  build_prompt req.lead (pyOrS req.tone "Friendly")

/-- The temperature spread the endpoint iterates over. -/
def reqTemps (req : GenerateRequest) : List ℚ :=
  compute_spread_temperatures (reqBaseTemp req) (reqVariants req)

/-- The call `generate_endpoint` issues at a given temperature. -/
def reqCall (req : GenerateRequest) (temp : ℚ) : CallRec :=
  mkCall (reqMessages req) temp (reqMaxTokens req)

/-- Embedding of `generate_endpoint(req)`: build the prompt, compute
the spread, loop over it (fail-fast), and guard against an empty
accumulator.  Returns the chronological list of model calls issued and
the HTTP outcome. -/
def generate_endpoint (oracle : Oracle) (fresh : ℕ → String) (req : GenerateRequest) :
    List CallRec × Except GenError (List Variant) :=
  let temps := reqTemps req
  let result := genLoop oracle fresh (reqMessages req) (reqMaxTokens req) 0 temps
  (result.1,
   match result.2 with
   | .ok collected => if collected.isEmpty then .error .internal else .ok collected
   | .error e => .error e)

/-! ## Send endpoint (`send_endpoint`, `smtp_send.py`) -/

/-- The demo recipient (`DEMO_RECIPIENT_EMAIL` env default): every send
is routed here. -/
def DEMO_RECIPIENT_EMAIL : String := "goledc123@gmail.com"

/-- The HTTP outcomes of `send_endpoint`. -/
inductive SendOutcome where
  | badRequest (detail : String)
  | serverError (detail : String)
  | success (message : String)

/-- Embedding of `send_endpoint(req)` over an abstract delivery gateway
`gateway to subject html_body` (the function `main.py` names
`send_email_resend`).  Returns the outcome and the list of gateway
invocations `(to, subject, html_body)`. -/
def send_endpoint (gateway : String → String → String → Bool) (req : SendRequest) :
    SendOutcome × List (String × String × String) :=
  if req.recipient_email = "" ∨ req.subject = "" ∨ req.body = "" then
    (.badRequest "recipient_email, subject and body are required.", [])
  else
    let ok := gateway DEMO_RECIPIENT_EMAIL req.subject req.body
    if ok then
      (.success ("Email sent to " ++ DEMO_RECIPIENT_EMAIL ++ " (demo mode)"),
       [(DEMO_RECIPIENT_EMAIL, req.subject, req.body)])
    else
      (.serverError "SMTP send failed.", [(DEMO_RECIPIENT_EMAIL, req.subject, req.body)])

/-- The module-level function names `smtp_send.py` defines. -/
def smtp_send_module_defs : List String :=
  ["_connect_smtp", "send_email_smtp", "load_json_file"]

/-- The name `main.py` imports from `smtp_send` and calls in
`send_endpoint` (`from smtp_send import send_email_resend`). -/
def main_smtp_import : String := "send_email_resend"

/-- One full iteration of the generation loop of `generate_endpoint`
for a given request at index `i` and temperature `t`. -/
def reqStep (oracle : Oracle) (fresh : ℕ → String) (req : GenerateRequest) (i : ℕ) (t : ℚ) :
    Except GenError Variant :=
  stepExc oracle fresh i (reqCall req t)

/-! ## Helper lemmas -/

lemma jtruthy_str_iff (s : String) : jtruthy (.str s) = true ↔ s ≠ "" := by
  simp [jtruthy]

lemma clamp01_nonneg (x : ℚ) : 0 ≤ clamp01 x := le_max_left 0 _

lemma clamp01_le_one (x : ℚ) : clamp01 x ≤ 1 :=
  max_le (by norm_num) (min_le_left 1 x)

lemma clamp01_of_mem {x : ℚ} (h0 : 0 ≤ x) (h1 : x ≤ 1) : clamp01 x = x := by
  unfold clamp01
  rw [min_eq_right h1, max_eq_right h0]

lemma round3_nonneg {x : ℚ} (h : 0 ≤ x) : 0 ≤ round3 x := by
  unfold round3
  apply div_nonneg _ (by norm_num)
  have : (0 : ℤ) ≤ round (1000 * x) := by
    rw [round_eq]
    exact Int.le_floor.mpr (by push_cast; linarith)
  exact_mod_cast this

lemma round3_le_one {x : ℚ} (h : x ≤ 1) : round3 x ≤ 1 := by
  unfold round3
  rw [div_le_one (by norm_num)]
  have hle : round (1000 * x) ≤ 1000 := by
    rw [round_eq, Int.floor_le_iff]
    push_cast
    linarith
  exact_mod_cast hle

lemma round3_lt_round3 {x y : ℚ} (h : x + 1 / 1000 ≤ y) : round3 x < round3 y := by
  unfold round3
  rw [div_lt_div_iff_of_pos_right (by norm_num)]
  have : (round (1000 * x) : ℤ) < round (1000 * y) := by
    rw [round_eq, round_eq]
    have h1 : (1000 : ℚ) * x + 1 / 2 + 1 ≤ 1000 * y + 1 / 2 := by linarith
    calc ⌊(1000 : ℚ) * x + 1 / 2⌋ < ⌊(1000 : ℚ) * x + 1 / 2⌋ + 1 := by omega
      _ = ⌊(1000 : ℚ) * x + 1 / 2 + 1⌋ := by rw [Int.floor_add_one]
      _ ≤ ⌊(1000 : ℚ) * y + 1 / 2⌋ := Int.floor_le_floor h1
  exact_mod_cast this

/-- A concrete lead used to instantiate theorems with hypotheses. -/
def demoLead : Lead := { first_name := "Ada" }

/-! ## Claims -/

/-- C3 (counterexample): the claim `spread(x, 1) = [clamp(x)]` fails at
`x = 0`: the falsy-default `base_temp or 0.7` replaces the base `0.0`
by `0.7`, so `spread(0, 1) = [0.7]` while `clamp(0) = 0`. -/
theorem claim_C3_counterexample :
    compute_spread_temperatures 0 1 = [7 / 10] ∧
    clamp01 0 = 0 ∧
    compute_spread_temperatures 0 1 ≠ [clamp01 0] := by
  refine ⟨?_, ?_, ?_⟩ <;>
    norm_num [compute_spread_temperatures, clamp01, min_def, max_def]

/-- C3 (amended): for every x ≠ 0, `spread(x, 1)` returns the
one-element list containing x clamped to [0.0, 1.0]; at x = 0 the
falsy-default substitutes the base 0.7 and `spread(0, 1) = [0.7]`. -/
theorem claim_C3_spread_singleton (x : ℚ) (hx : x ≠ 0) :
    compute_spread_temperatures x 1 = [clamp01 x] := by
  simp [compute_spread_temperatures, hx]

/-- Witness for C3 at x = 2: the hypothesis holds and
`spread(2, 1) = [clamp(2)]`. -/
theorem claim_C3_witness :
    (2 : ℚ) ≠ 0 ∧ compute_spread_temperatures 2 1 = [clamp01 2] :=
  ⟨by norm_num, claim_C3_spread_singleton 2 (by norm_num)⟩

/-- C9: a request temperature of 0.0 is replaced by the default 0.7 by
the endpoint's `float(req.temperature or 0.7)` and by the calculator's
`float(base_temp or 0.7)`, so the spread for temperature 0.0 is the
spread for 0.7 — centered on 0.7 (middle value 0.7 for 3 variants),
not on 0.0. -/
theorem claim_C9_zero_temperature_default :
    (∀ req : GenerateRequest, reqBaseTemp { req with temperature := some 0 } = 7 / 10) ∧
    (∀ n : ℕ, compute_spread_temperatures 0 n = compute_spread_temperatures (7 / 10) n) ∧
    compute_spread_temperatures 0 3 = [63 / 100, 7 / 10, 77 / 100] := by
  refine ⟨fun req => by simp [reqBaseTemp, pyOrQ], fun n => by norm_num [compute_spread_temperatures], ?_⟩
  unfold compute_spread_temperatures
  norm_num [List.range_succ, spreadRawVal, clamp01, min_def, max_def, round3, round_eq]

/-- C6: `extract_first_json` strips the surrounding whitespace and the
markdown fences (including the language-tagged ` ```json `), leaving
the JSON payload, and the normalization yields subject "S", body "B",
`cta_text = None` (and the fresh id, since the model supplied none). -/
theorem claim_C6_fenced_json_normalizes :
    extract_first_json "```json\n\x7b\"subject\":\"S\",\"body\":\"B\"\x7d\n```" =
      .ok (.obj [("subject", .str "S"), ("body", .str "B")]) ∧
    normalizeVariant "u0" "```json\n\x7b\"subject\":\"S\",\"body\":\"B\"\x7d\n```" =
      .ok { id := .str "u0", subject := .str "S", body := .str "B", cta_text := none,
            confidence := none, used_tokens := none,
            raw_text := "\x7b\"subject\": \"S\", \"body\": \"B\"\x7d" } :=
  ⟨rfl, rfl⟩

/-- C10: `extract_first_json` deletes the substring "```" anywhere in
the input, not only at the fences: this payload is already valid JSON
whose body contains triple backticks, yet normalization returns a
variant whose body has them removed, differing from the parsed
(intended) content. -/
theorem claim_C10_interior_fences_removed :
    json_loads "\x7b\"subject\":\"S\",\"body\":\"cite ```code``` done\"\x7d" =
      some (.obj [("subject", .str "S"), ("body", .str "cite ```code``` done")]) ∧
    normalizeVariant "u1" "\x7b\"subject\":\"S\",\"body\":\"cite ```code``` done\"\x7d" =
      .ok { id := .str "u1", subject := .str "S", body := .str "cite code done",
            cta_text := none, confidence := none, used_tokens := none,
            raw_text := "\x7b\"subject\": \"S\", \"body\": \"cite code done\"\x7d" } ∧
    Json.str "cite code done" ≠ Json.str "cite ```code``` done" :=
  ⟨rfl, rfl, by simp⟩

/-- C8: the prompt builder is a pure function of lead and tone alone:
identical lead and tone give identical messages, and the request's
temperature, max_tokens and variants fields cannot influence the
messages the endpoint sends. -/
theorem claim_C8_prompt_deterministic_no_leak :
    (∀ (lead : Lead) (tone : String), build_prompt lead tone = build_prompt lead tone) ∧
    (∀ (lead : Lead) (tone : Option String) (t1 t2 : Option ℚ) (m1 m2 : Option ℤ)
       (v1 v2 : Option ℕ),
      reqMessages { lead := lead, temperature := t1, max_tokens := m1, tone := tone, variants := v1 } =
      reqMessages { lead := lead, temperature := t2, max_tokens := m2, tone := tone, variants := v2 }) :=
  ⟨fun _ _ => rfl, fun _ _ _ _ _ _ _ _ => rfl⟩

/-- Witness for C8 at concrete differing temperature/variants. -/
theorem claim_C8_witness :
    reqMessages { lead := demoLead, temperature := some 0, max_tokens := some 10,
                  tone := some "Bold", variants := some 1 } =
    reqMessages { lead := demoLead, temperature := some 1, max_tokens := some 900,
                  tone := some "Bold", variants := some 9 } :=
  claim_C8_prompt_deterministic_no_leak.2 demoLead (some "Bold") (some 0) (some 1)
    (some 10) (some 900) (some 1) (some 9)

/-- C5 (code bug): `send_endpoint` validates the three fields and then
routes every send to the fixed demo address through the delivery
helper it imported — but the imported name `send_email_resend` is not
defined by `smtp_send.py` (which defines `send_email_smtp`), so that
module-level binding fails and no send can actually be dispatched. -/
theorem claim_C5_send_helper_mismatch :
    main_smtp_import ∉ smtp_send_module_defs ∧
    (send_endpoint (fun _ _ _ => true)
        { recipient_email := "user@example.com", subject := "Hi", body := "<p>Hello</p>" }) =
      (.success "Email sent to goledc123@gmail.com (demo mode)",
       [("goledc123@gmail.com", "Hi", "<p>Hello</p>")]) ∧
    (send_endpoint (fun _ _ _ => true)
        { recipient_email := "", subject := "Hi", body := "<p>Hello</p>" }) =
      (.badRequest "recipient_email, subject and body are required.", []) :=
  ⟨by decide, rfl, rfl⟩

/-- C2 (amended): for every count in [1,10] and every base in (0,1],
the spread has exactly `count` values, each in [0,1]; for count ≥ 2 the
value at index i is the clamped-and-rounded mirror
`2*base - raw(count-1-i)` of the raw value at the opposite index
(symmetry up to clamping and rounding), and for count 1 it is `[base]`.
At base 0 the falsy-default replaces the base by 0.7 and the symmetry
around the requested base fails (see the counterexample). -/
theorem claim_C2_spread_shape (b : ℚ) (n : ℕ) (h1 : 1 ≤ n) (h10 : n ≤ 10)
    (hb0 : 0 < b) (hb1 : b ≤ 1) :
    (compute_spread_temperatures b n).length = n ∧
    (∀ t ∈ compute_spread_temperatures b n, 0 ≤ t ∧ t ≤ 1) ∧
    (n = 1 → compute_spread_temperatures b n = [b]) ∧
    (2 ≤ n → ∀ i, i < n →
      (compute_spread_temperatures b n)[i]? =
        some (round3 (clamp01 (2 * b - spreadRawVal b n (n - 1 - i))))) := by
  have hbne : b ≠ 0 := ne_of_gt hb0
  unfold compute_spread_temperatures
  simp only [if_neg hbne]
  by_cases hn : n ≤ 1
  · have hn1 : n = 1 := by omega
    subst hn1
    simp only [if_pos (by norm_num : (1 : ℕ) ≤ 1)]
    refine ⟨rfl, ?_, ?_, ?_⟩
    · intro t ht
      simp only [List.mem_singleton] at ht
      subst ht
      exact ⟨clamp01_nonneg b, clamp01_le_one b⟩
    · intro _
      rw [clamp01_of_mem hb0.le hb1]
    · intro h
      omega
  · simp only [if_neg hn]
    refine ⟨by simp, ?_, ?_, ?_⟩
    · intro t ht
      simp only [List.mem_map] at ht
      obtain ⟨i, _, rfl⟩ := ht
      exact ⟨round3_nonneg (clamp01_nonneg _), round3_le_one (clamp01_le_one _)⟩
    · intro h
      omega
    · intro _ i hi
      have hmirror : spreadRawVal b n i = 2 * b - spreadRawVal b n (n - 1 - i) := by
        unfold spreadRawVal
        have h' : (n - 1 - i) + (1 + i) = n := by omega
        have hcast : ((n - 1 - i : ℕ) : ℚ) = (n : ℚ) - 1 - (i : ℚ) := by
          have := congrArg (fun m : ℕ => (m : ℚ)) h'
          push_cast at this
          linarith
        rw [hcast]
        ring
      simp [List.getElem?_map, List.getElem?_range hi, ← hmirror]

/-- C2 (counterexample): at base 0 (admitted by the claim's range
[0,1]) and count 2 the sequence is `[0.665, 0.735]` — centered on the
substituted default 0.7 — and the index-0 value is not the clamped,
rounded mirror `2*0 - raw(1)` of the requested base 0. -/
theorem claim_C2_counterexample :
    compute_spread_temperatures 0 2 = [133/200, 147/200] ∧
    (compute_spread_temperatures 0 2)[0]? ≠
      some (round3 (clamp01 (2 * 0 - spreadRawVal 0 2 (2 - 1 - 0)))) := by
  have hlist : compute_spread_temperatures 0 2 = [133/200, 147/200] := by
    unfold compute_spread_temperatures
    norm_num [List.range_succ, spreadRawVal, clamp01, min_def, max_def, round3, round_eq]
  refine ⟨hlist, ?_⟩
  rw [hlist]
  norm_num [spreadRawVal, clamp01, min_def, max_def, round3, round_eq]

/-- Witness for C2 at base 3/5, count 3. -/
theorem claim_C2_witness :
    ((1:ℕ) ≤ 3 ∧ (3:ℕ) ≤ 10 ∧ (0:ℚ) < 3/5 ∧ (3:ℚ)/5 ≤ 1) ∧
    (compute_spread_temperatures (3/5) 3).length = 3 ∧
    (compute_spread_temperatures (3/5) 3)[0]? =
      some (round3 (clamp01 (2 * (3/5) - spreadRawVal (3/5) 3 (3 - 1 - 0)))) := by
  have h := claim_C2_spread_shape (3/5) 3 (by norm_num) (by norm_num) (by norm_num) (by norm_num)
  exact ⟨⟨by norm_num, by norm_num, by norm_num, by norm_num⟩, h.1,
    h.2.2.2 (by norm_num) 0 (by norm_num)⟩

/-- C7: for every raw text, the normalization either returns a variant
whose subject and body are truthy (for string values: non-empty), or
fails with exactly one of the three errors, each tied to its condition:
parse failure when the fence-stripped text is not valid JSON, shape
failure when the parsed value is neither an object nor a non-empty list
whose first element is an object, and missing-field failure when the
subject or body is absent or falsy. -/
theorem claim_C7_normalize_taxonomy (fresh raw : String) :
    (∃ v, normalizeVariant fresh raw = .ok v ∧ jtruthy v.subject = true ∧ jtruthy v.body = true) ∨
    (normalizeVariant fresh raw = .error .parse ∧ json_loads (fenceCleaned raw) = none) ∨
    (normalizeVariant fresh raw = .error .shape ∧
      ∃ j, json_loads (fenceCleaned raw) = some j ∧ shapeTarget j = none) ∨
    (normalizeVariant fresh raw = .error .missingField ∧
      ∃ j o, json_loads (fenceCleaned raw) = some j ∧ shapeTarget j = some o ∧
        (jtruthyOpt (jget o "subject") = false ∨ jtruthyOpt (jget o "body") = false)) := by
  cases hj : json_loads (fenceCleaned raw) with
  | none =>
    right; left
    exact ⟨by simp [normalizeVariant, extract_first_json, hj], rfl⟩
  | some j =>
    cases hs : shapeTarget j with
    | none =>
      right; right; left
      exact ⟨by simp [normalizeVariant, extract_first_json, hj, hs], j, rfl, hs⟩
    | some o =>
      cases hsub : jget o "subject" with
      | none =>
        right; right; right
        refine ⟨by simp [normalizeVariant, extract_first_json, hj, hs, hsub], j, o, rfl, hs, ?_⟩
        exact Or.inl (by rw [hsub]; rfl)
      | some s =>
        cases hbody : jget o "body" with
        | none =>
          right; right; right
          refine ⟨by simp [normalizeVariant, extract_first_json, hj, hs, hsub, hbody], j, o, rfl, hs, ?_⟩
          exact Or.inr (by rw [hbody]; rfl)
        | some bd =>
          cases hb2 : jtruthy s && jtruthy bd with
          | true =>
            left
            refine ⟨{ id := pyOrId (jget o "id") fresh, subject := s, body := bd,
                      cta_text := pyOrGetNone (jget o "cta_text") (jget o "cta"),
                      confidence := jget o "confidence",
                      used_tokens := pyOrGet (jget o "used_tokens") (jget o "usedTokens"),
                      raw_text := dumpJson (.obj o) },
                    by simp [normalizeVariant, extract_first_json, hj, hs, hsub, hbody, hb2], ?_, ?_⟩
            · exact (Bool.and_eq_true _ _ |>.mp hb2).1
            · exact (Bool.and_eq_true _ _ |>.mp hb2).2
          | false =>
            right; right; right
            refine ⟨by simp [normalizeVariant, extract_first_json, hj, hs, hsub, hbody, hb2], j, o, rfl, hs, ?_⟩
            rcases Bool.and_eq_false_iff.mp hb2 with h | h
            · exact Or.inl (by rw [hsub]; simpa [jtruthyOpt] using h)
            · exact Or.inr (by rw [hbody]; simpa [jtruthyOpt] using h)

/-- Witness for C7 at the input "not json": the parse-failure branch. -/
theorem claim_C7_witness :
    normalizeVariant "u2" "not json" = Except.error NormError.parse ∧
    ((∃ v, normalizeVariant "u2" "not json" = .ok v ∧ jtruthy v.subject = true ∧
        jtruthy v.body = true) ∨
     (normalizeVariant "u2" "not json" = .error .parse ∧
        json_loads (fenceCleaned "not json") = none) ∨
     (normalizeVariant "u2" "not json" = .error .shape ∧
        ∃ j, json_loads (fenceCleaned "not json") = some j ∧ shapeTarget j = none) ∨
     (normalizeVariant "u2" "not json" = .error .missingField ∧
        ∃ j o, json_loads (fenceCleaned "not json") = some j ∧ shapeTarget j = some o ∧
          (jtruthyOpt (jget o "subject") = false ∨ jtruthyOpt (jget o "body") = false))) :=
  ⟨rfl, claim_C7_normalize_taxonomy "u2" "not json"⟩

lemma genLoop_cons (oracle : Oracle) (fresh : ℕ → String) (msgs : List ChatMessage) (mt : ℤ)
    (k : ℕ) (t0 : ℚ) (rest : List ℚ) :
    genLoop oracle fresh msgs mt k (t0 :: rest) =
      match stepExc oracle fresh k (mkCall msgs t0 mt) with
      | .error e => ([mkCall msgs t0 mt], .error e)
      | .ok v =>
        (mkCall msgs t0 mt :: (genLoop oracle fresh msgs mt (k + 1) rest).1,
         match (genLoop oracle fresh msgs mt (k + 1) rest).2 with
         | .ok l => .ok (v :: l)
         | .error e => .error e) := rfl

lemma genLoop_error_of_step (oracle : Oracle) (fresh : ℕ → String) (msgs : List ChatMessage)
    (mt : ℤ) :
    ∀ (temps : List ℚ) (k i : ℕ) (t : ℚ),
      temps[i]? = some t →
      (∀ j u, j < i → temps[j]? = some u →
        ∃ v, stepExc oracle fresh (k + j) (mkCall msgs u mt) = .ok v) →
      (∃ e0, stepExc oracle fresh (k + i) (mkCall msgs t mt) = .error e0) →
      ∃ e, (genLoop oracle fresh msgs mt k temps).2 = .error e ∧
        stepExc oracle fresh (k + i) (mkCall msgs t mt) = .error e := by
  intro temps
  induction temps with
  | nil =>
    intro k i t hit
    simp at hit
  | cons t0 rest ih =>
    intro k i t hit hprev hfail
    cases i with
    | zero =>
      rw [List.getElem?_cons_zero, Option.some_inj] at hit
      subst hit
      obtain ⟨e0, he0⟩ := hfail
      rw [Nat.add_zero] at he0
      refine ⟨e0, ?_, by rw [Nat.add_zero]; exact he0⟩
      rw [genLoop_cons, he0]
    | succ i' =>
      rw [List.getElem?_cons_succ] at hit
      obtain ⟨v0, hv0⟩ := hprev 0 t0 (by omega) (by rw [List.getElem?_cons_zero])
      rw [Nat.add_zero] at hv0
      have hprev' : ∀ j u, j < i' → rest[j]? = some u →
          ∃ v, stepExc oracle fresh (k + 1 + j) (mkCall msgs u mt) = .ok v := by
        intro j u hj hju
        have := hprev (j + 1) u (by omega) (by rw [List.getElem?_cons_succ]; exact hju)
        rwa [show k + (j + 1) = k + 1 + j by omega] at this
      have hfail' : ∃ e0, stepExc oracle fresh (k + 1 + i') (mkCall msgs t mt) = .error e0 := by
        obtain ⟨e0, he0⟩ := hfail
        exact ⟨e0, by rwa [show k + 1 + i' = k + (i' + 1) by omega]⟩
      obtain ⟨e, he, hestep⟩ := ih (k + 1) i' t hit hprev' hfail'
      refine ⟨e, ?_, by rwa [show k + (i' + 1) = k + 1 + i' by omega]⟩
      rw [genLoop_cons, hv0]
      simp only []
      rw [he]

lemma genLoop_all_ok (oracle : Oracle) (fresh : ℕ → String) (msgs : List ChatMessage) (mt : ℤ) :
    ∀ (temps : List ℚ) (k : ℕ),
      (∀ i t, temps[i]? = some t →
        ∃ v, stepExc oracle fresh (k + i) (mkCall msgs t mt) = .ok v) →
      (genLoop oracle fresh msgs mt k temps).1 = temps.map (fun t => mkCall msgs t mt) ∧
      ∃ l, (genLoop oracle fresh msgs mt k temps).2 = .ok l ∧ l.length = temps.length ∧
        ∀ i t, temps[i]? = some t →
          ∃ v, stepExc oracle fresh (k + i) (mkCall msgs t mt) = .ok v ∧ l[i]? = some v := by
  intro temps
  induction temps with
  | nil =>
    intro k _
    exact ⟨rfl, [], rfl, rfl, by intro i t hit; simp at hit⟩
  | cons t0 rest ih =>
    intro k h
    obtain ⟨v0, hv0⟩ := h 0 t0 (by rw [List.getElem?_cons_zero])
    rw [Nat.add_zero] at hv0
    have h' : ∀ i t, rest[i]? = some t →
        ∃ v, stepExc oracle fresh (k + 1 + i) (mkCall msgs t mt) = .ok v := by
      intro i t hit
      have := h (i + 1) t (by rw [List.getElem?_cons_succ]; exact hit)
      rwa [show k + (i + 1) = k + 1 + i by omega] at this
    obtain ⟨htr, l, hl, hlen, hpt⟩ := ih (k + 1) h'
    refine ⟨?_, v0 :: l, ?_, by simp [hlen], ?_⟩
    · rw [genLoop_cons, hv0]
      simp only [List.map_cons]
      rw [htr]
    · rw [genLoop_cons, hv0]
      simp only []
      rw [hl]
    · intro i t hit
      cases i with
      | zero =>
        rw [List.getElem?_cons_zero, Option.some_inj] at hit
        subst hit
        exact ⟨v0, by rw [Nat.add_zero]; exact hv0, by rw [List.getElem?_cons_zero]⟩
      | succ i' =>
        rw [List.getElem?_cons_succ] at hit
        obtain ⟨v, hv, hlv⟩ := hpt i' t hit
        exact ⟨v, by rwa [show k + (i' + 1) = k + 1 + i' by omega],
          by rw [List.getElem?_cons_succ]; exact hlv⟩

lemma stepExc_error_index (oracle : Oracle) (fresh : ℕ → String) (idx : ℕ) (call : CallRec)
    (e : GenError) (h : stepExc oracle fresh idx call = .error e) :
    e.variantIndex = some idx := by
  cases ho : oracle idx call with
  | error m =>
    simp only [stepExc, ho, Except.error.injEq] at h
    subst h
    rfl
  | ok raw =>
    cases hn : normalizeVariant (fresh idx) raw with
    | ok v => simp [stepExc, ho, hn] at h
    | error ne =>
      cases ne <;> simp only [stepExc, ho, hn, Except.error.injEq] at h <;> subst h <;> rfl

lemma spread_length (b : ℚ) (n : ℕ) (h1 : 1 ≤ n) :
    (compute_spread_temperatures b n).length = n := by
  unfold compute_spread_temperatures
  by_cases hn : n ≤ 1
  · simp only [if_pos hn, List.length_singleton]
    omega
  · simp [hn]

/-- C1: fail-fast atomicity.  If the step at index `i` fails — a model
call transport failure or any normalization failure (parse, shape,
missing subject/body) — while every earlier index succeeds, then the
whole request returns an HTTP error whose detail names exactly that
variant index, and no variant list is returned. -/
theorem claim_C1_fail_fast (oracle : Oracle) (fresh : ℕ → String) (req : GenerateRequest)
    (i : ℕ) (t : ℚ)
    (hit : (reqTemps req)[i]? = some t)
    (hprev : ∀ j u, j < i → (reqTemps req)[j]? = some u →
      ∃ v, reqStep oracle fresh req j u = .ok v)
    (hfail : ∃ e0, reqStep oracle fresh req i t = .error e0) :
    ∃ e, (generate_endpoint oracle fresh req).2 = .error e ∧
      GenError.variantIndex e = some i ∧
      ∀ l, (generate_endpoint oracle fresh req).2 ≠ .ok l := by
  have h0 : ∀ j u, reqStep oracle fresh req j u =
      stepExc oracle fresh (0 + j) (mkCall (reqMessages req) u (reqMaxTokens req)) := by
    intro j u
    rw [Nat.zero_add]
    rfl
  obtain ⟨e, he, hes⟩ := genLoop_error_of_step oracle fresh (reqMessages req) (reqMaxTokens req)
    (reqTemps req) 0 i t hit
    (fun j u hj hju => by rw [← h0]; exact hprev j u hj hju)
    (by obtain ⟨e0, h⟩ := hfail; exact ⟨e0, by rw [← h0]; exact h⟩)
  rw [Nat.zero_add] at hes
  have hgen : (generate_endpoint oracle fresh req).2 = .error e := by
    unfold generate_endpoint
    simp only []
    rw [he]
  exact ⟨e, hgen, stepExc_error_index oracle fresh i _ e hes, fun l => by rw [hgen]; simp⟩

/-- C4 (amended): when every step succeeds, the endpoint issues exactly
`n` model calls — the chronological call list is the spread mapped to
call payloads, so the `i`-th call carries the `i`-th temperature, in
ascending index order — and returns exactly `n` variants with the
`i`-th variant produced by the `i`-th call.  For `variants = 3` the
three temperatures are strictly increasing (hence distinct) or a raw
value exceeded the clamping boundary, provided the base temperature is
at least 0.01; below that, 3-decimal rounding can collapse them (see
the counterexample). -/
theorem claim_C4_success_shape (oracle : Oracle) (fresh : ℕ → String) (req : GenerateRequest)
    (n : ℕ) (hv : req.variants = some n) (h1 : 1 ≤ n) (h10 : n ≤ 10)
    (hok : ∀ i t, (reqTemps req)[i]? = some t →
      ∃ v, reqStep oracle fresh req i t = .ok v) :
    (generate_endpoint oracle fresh req).1 = (reqTemps req).map (reqCall req) ∧
    (reqTemps req).length = n ∧
    (∃ l, (generate_endpoint oracle fresh req).2 = .ok l ∧ l.length = n ∧
      ∀ i t, (reqTemps req)[i]? = some t →
        ∃ v, reqStep oracle fresh req i t = .ok v ∧ l[i]? = some v) ∧
    (∀ b : ℚ, n = 3 → req.temperature = some b → 1 / 100 ≤ b → b ≤ 1 →
      (reqTemps req).Chain' (· < ·) ∨ ∃ i, i < 3 ∧ 1 < spreadRawVal b 3 i) := by
  have h0 : ∀ j u, reqStep oracle fresh req j u =
      stepExc oracle fresh (0 + j) (mkCall (reqMessages req) u (reqMaxTokens req)) := by
    intro j u
    rw [Nat.zero_add]
    rfl
  have hlen : (reqTemps req).length = n := by
    have : reqVariants req = n := by
      have hn0 : n ≠ 0 := by omega
      unfold reqVariants pyOrN
      rw [hv]
      simp [hn0]
    rw [reqTemps, this, spread_length _ _ h1]
  obtain ⟨htr, l, hl, hllen, hpt⟩ := genLoop_all_ok oracle fresh (reqMessages req)
    (reqMaxTokens req) (reqTemps req) 0
    (fun i t hit => by rw [← h0]; exact hok i t hit)
  refine ⟨?_, hlen, ⟨l, ?_, by rw [hllen, hlen], ?_⟩, ?_⟩
  · unfold generate_endpoint
    simp only []
    exact htr
  · unfold generate_endpoint
    simp only []
    rw [hl]
    have : l ≠ [] := by
      intro hnil
      rw [hnil] at hllen
      simp at hllen
      omega
    simp [this]
  · intro i t hit
    obtain ⟨v, hv', hlv⟩ := hpt i t hit
    exact ⟨v, by rw [h0]; exact hv', hlv⟩
  · intro b h3 hb hb1 hb2
    have hbpos : (0 : ℚ) < b := lt_of_lt_of_le (by norm_num) hb1
    have hbne : b ≠ 0 := ne_of_gt hbpos
    have hbase : reqBaseTemp req = b := by
      unfold reqBaseTemp pyOrQ
      rw [hb]
      simp [hbne]
    have hvar : reqVariants req = 3 := by
      unfold reqVariants pyOrN
      rw [hv, h3]
      norm_num
    have e0 : spreadRawVal b 3 0 = b * (9 / 10) := by
      unfold spreadRawVal
      push_cast
      ring
    have e1 : spreadRawVal b 3 1 = b := by
      unfold spreadRawVal
      push_cast
      ring
    have e2 : spreadRawVal b 3 2 = b * (11 / 10) := by
      unfold spreadRawVal
      push_cast
      ring
    by_cases hcl : b ≤ 10 / 11
    · left
      have htemps : reqTemps req =
          [round3 (clamp01 (spreadRawVal b 3 0)), round3 (clamp01 (spreadRawVal b 3 1)),
           round3 (clamp01 (spreadRawVal b 3 2))] := by
        rw [reqTemps, hbase, hvar]
        unfold compute_spread_temperatures
        simp [hbne, List.range_succ]
      rw [htemps]
      have hc0 : clamp01 (spreadRawVal b 3 0) = spreadRawVal b 3 0 := by
        rw [e0]
        exact clamp01_of_mem (by nlinarith) (by nlinarith)
      have hc1 : clamp01 (spreadRawVal b 3 1) = spreadRawVal b 3 1 := by
        rw [e1]
        exact clamp01_of_mem hbpos.le hb2
      have hc2 : clamp01 (spreadRawVal b 3 2) = spreadRawVal b 3 2 := by
        rw [e2]
        exact clamp01_of_mem (by nlinarith) (by nlinarith)
      have hlt1 : round3 (clamp01 (spreadRawVal b 3 0)) < round3 (clamp01 (spreadRawVal b 3 1)) := by
        rw [hc0, hc1, e0, e1]
        exact round3_lt_round3 (by nlinarith)
      have hlt2 : round3 (clamp01 (spreadRawVal b 3 1)) < round3 (clamp01 (spreadRawVal b 3 2)) := by
        rw [hc1, hc2, e1, e2]
        exact round3_lt_round3 (by nlinarith)
      simp [List.chain'_cons, hlt1, hlt2]
    · right
      refine ⟨2, by norm_num, ?_⟩
      rw [e2]
      nlinarith [not_le.mp hcl]

def okOracle : Oracle := fun _ _ => .ok "\x7b\"subject\": \"S\", \"body\": \"B\"\x7d"

def failSecondOracle : Oracle := fun k c => if k = 1 then .error "boom" else okOracle k c

def freshIds : ℕ → String := fun k => "id-" ++ toString k

def reqW : GenerateRequest := { lead := demoLead, temperature := some (1/2), variants := some 3 }

lemma reqW_temps : reqTemps reqW = [9/20, 1/2, 11/20] := by
  unfold reqTemps reqBaseTemp reqVariants reqW pyOrQ pyOrN compute_spread_temperatures
  norm_num [List.range_succ, spreadRawVal, clamp01, min_def, max_def, round3, round_eq]

/-- Witness for C1: an oracle failing on the second of three calls. -/
theorem claim_C1_witness :
    (reqTemps reqW)[1]? = some (1/2) ∧
    (∃ e0, reqStep failSecondOracle freshIds reqW 1 (1/2) = .error e0) ∧
    (∃ e, (generate_endpoint failSecondOracle freshIds reqW).2 = .error e ∧
      GenError.variantIndex e = some 1 ∧
      ∀ l, (generate_endpoint failSecondOracle freshIds reqW).2 ≠ .ok l) := by
  have h1 : (reqTemps reqW)[1]? = some (1/2) := by rw [reqW_temps]; rfl
  refine ⟨h1, ⟨.model 1 "boom", rfl⟩, ?_⟩
  apply claim_C1_fail_fast failSecondOracle freshIds reqW 1 (1/2) h1 ?_ ⟨.model 1 "boom", rfl⟩
  intro j u hj hju
  have hj0 : j = 0 := by omega
  subst hj0
  rw [reqW_temps] at hju
  simp only [List.getElem?_cons_zero, Option.some_inj] at hju
  subst hju
  exact ⟨_, rfl⟩

/-- Witness for C4: an all-success oracle for a 3-variant request at
base temperature 0.5. -/
theorem claim_C4_witness :
    (reqW.variants = some 3 ∧ (1:ℕ) ≤ 3 ∧ (3:ℕ) ≤ 10) ∧
    (generate_endpoint okOracle freshIds reqW).1 = (reqTemps reqW).map (reqCall reqW) ∧
    (reqTemps reqW).length = 3 ∧
    (∃ l, (generate_endpoint okOracle freshIds reqW).2 = .ok l ∧ l.length = 3 ∧
      ∀ i t, (reqTemps reqW)[i]? = some t →
        ∃ v, reqStep okOracle freshIds reqW i t = .ok v ∧ l[i]? = some v) ∧
    (reqTemps reqW).Chain' (· < ·) := by
  have hok : ∀ i t, (reqTemps reqW)[i]? = some t →
      ∃ v, reqStep okOracle freshIds reqW i t = .ok v := by
    intro i t hit
    rw [reqW_temps] at hit
    match i, hit with
    | 0, hit =>
      simp only [List.getElem?_cons_zero, Option.some_inj] at hit
      subst hit
      exact ⟨_, rfl⟩
    | 1, hit =>
      simp only [List.getElem?_cons_succ, List.getElem?_cons_zero, Option.some_inj] at hit
      subst hit
      exact ⟨_, rfl⟩
    | 2, hit =>
      simp only [List.getElem?_cons_succ, List.getElem?_cons_zero, Option.some_inj] at hit
      subst hit
      exact ⟨_, rfl⟩
    | (m+3), hit =>
      simp at hit
  have h := claim_C4_success_shape okOracle freshIds reqW 3 rfl (by norm_num) (by norm_num) hok
  refine ⟨⟨rfl, by norm_num, by norm_num⟩, h.1, h.2.1, h.2.2.1, ?_⟩
  rcases h.2.2.2 (1/2) rfl rfl (by norm_num) (by norm_num) with hch | ⟨i, hi, hgt⟩
  · exact hch
  · exfalso
    have : spreadRawVal (1/2) 3 i ≤ 1 := by
      unfold spreadRawVal
      interval_cases i <;> push_cast <;> linarith
    linarith

/-- A valid request (temperature 0.004 in [0,1], variants 3 in [1,10])
on which the three spread temperatures collapse by rounding. -/
def reqCx : GenerateRequest := { lead := demoLead, temperature := some (1/250), variants := some 3 }

/-- C4 (counterexample): at base temperature 0.004 the three
temperatures of a 3-variant request are all 0.004 — not distinct — yet
no raw value left [0,1], so no boundary clamping occurred: 3-decimal
rounding alone collapsed the spread. -/
theorem claim_C4_counterexample :
    reqTemps reqCx = [1/250, 1/250, 1/250] ∧
    ¬ (reqTemps reqCx).Pairwise (· ≠ ·) ∧
    (∀ i, i < 3 → 0 ≤ spreadRawVal (1/250) 3 i ∧ spreadRawVal (1/250) 3 i ≤ 1) := by
  have ht : reqTemps reqCx = [1/250, 1/250, 1/250] := by
    unfold reqTemps reqBaseTemp reqVariants reqCx pyOrQ pyOrN compute_spread_temperatures
    norm_num [List.range_succ, spreadRawVal, clamp01, min_def, max_def, round3, round_eq]
  refine ⟨ht, by rw [ht]; simp, ?_⟩
  intro i hi
  unfold spreadRawVal
  interval_cases i <;> norm_num
